import Mathlib

/-!
Shallow embedding of `src/diesel/src/sqlite/types/mod.rs`: the SQLite
decode (`FromSql`) and encode (`ToSql`) implementations, together with the
`JsonValidFlag` extension flag type. The reader (`SqliteValue`) and the bind
sink are collaborators whose internals are not part of this module; they are
modelled from the specification where marked.
-/

namespace DieselSqlite

/-- Two's-complement narrowing of an integer to `w` bits (the semantics of a
Rust `as` cast to a `w`-bit signed integer). -/
def wrapTo (w : Nat) (n : Int) : Int :=
  (n + 2 ^ (w - 1)) % 2 ^ w - 2 ^ (w - 1)

/-- Rust `as i16` on an integer value. -/
def wrap16 (n : Int) : Int := wrapTo 16 n

/-- Rust `as i32` on an integer value. -/
def wrap32 (n : Int) : Int := wrapTo 32 n

/-- The value is representable as a Rust `i16`. -/
abbrev inI16 (n : Int) : Prop := -32768 ≤ n ∧ n < 32768

/-- The value is representable as a Rust `i32`. -/
abbrev inI32 (n : Int) : Prop := -(2 ^ 31) ≤ n ∧ n < 2 ^ 31

/-- A UTF-8 continuation byte (`0x80..=0xBF`). -/
abbrev utf8Cont (b : Nat) : Prop := 0x80 ≤ b ∧ b < 0xC0

/-- Strict UTF-8 decoding of a byte sequence into its scalar values:
rejects continuation bytes in lead position, overlong encodings, surrogates
and code points above `0x10FFFF`. Returns `none` on invalid input. -/
def utf8Decode : List Nat → Option (List Nat)
  | [] => some []
  | b :: t =>
    if b < 0x80 then
      (fun cs => b :: cs) <$> utf8Decode t
    else if b < 0xC2 then none
    else if b < 0xE0 then
      match t with
      | b1 :: t1 =>
        if utf8Cont b1 then
          (fun cs => ((b - 0xC0) * 64 + (b1 - 0x80)) :: cs) <$> utf8Decode t1
        else none
      | [] => none
    else if b < 0xF0 then
      match t with
      | b1 :: b2 :: t2 =>
        if utf8Cont b1 ∧ utf8Cont b2 ∧ (b = 0xE0 → 0xA0 ≤ b1) ∧ (b = 0xED → b1 < 0xA0) then
          (fun cs => ((b - 0xE0) * 4096 + (b1 - 0x80) * 64 + (b2 - 0x80)) :: cs) <$> utf8Decode t2
        else none
      | _ => none
    else if b < 0xF5 then
      match t with
      | b1 :: b2 :: b3 :: t3 =>
        if utf8Cont b1 ∧ utf8Cont b2 ∧ utf8Cont b3 ∧ (b = 0xF0 → 0x90 ≤ b1) ∧ (b = 0xF4 → b1 < 0x90) then
          (fun cs =>
            ((b - 0xF0) * 262144 + (b1 - 0x80) * 4096 + (b2 - 0x80) * 64 + (b3 - 0x80)) :: cs)
            <$> utf8Decode t3
        else none
      | _ => none
    else none

/-- Round-to-nearest, ties-to-even of `m / 2 ^ shift` on naturals. -/
def rne (m : Nat) (shift : Nat) : Nat :=
  let d := 2 ^ shift
  let q := m / d
  let r := m % d
  if 2 * r > d then q + 1
  else if 2 * r < d then q
  else if q % 2 = 0 then q else q + 1

/-- Exact IEEE-754 widening of a binary32 bit pattern to binary64: the
semantics of the Rust `as f64` cast in `ToSql<Float, Sqlite> for f32`
(`*self as f64`). Widening is exact; NaN payloads are shifted into the high
mantissa bits. -/
def f32_as_f64 (bits : Nat) : Nat :=
  let s := bits / 2 ^ 31 % 2
  let e := bits / 2 ^ 23 % 2 ^ 8
  let m := bits % 2 ^ 23
  let sign := s * 2 ^ 63
  if e = 255 then
    sign + 2047 * 2 ^ 52 + m * 2 ^ 29
  else if e = 0 then
    if m = 0 then sign
    else
      sign + (Nat.log2 m + 874) * 2 ^ 52 + (m - 2 ^ Nat.log2 m) * 2 ^ (52 - Nat.log2 m)
  else
    sign + (e + 896) * 2 ^ 52 + m * 2 ^ 29

/-- IEEE-754 narrowing of a binary64 bit pattern to binary32 with
round-to-nearest ties-to-even: the semantics of the Rust `as f32` cast in
`FromSql<Float, Sqlite> for f32` (`value.read_double() as f32`). Overflow
becomes infinity; NaN becomes a quiet NaN keeping the top payload bits. -/
def f64_as_f32 (bits : Nat) : Nat :=
  let s : Nat := bits / 2 ^ 63 % 2
  let e : Nat := bits / 2 ^ 52 % 2 ^ 11
  let m : Nat := bits % 2 ^ 52
  let sign := s * 2 ^ 31
  if e = 2047 then
    if m = 0 then sign + 255 * 2 ^ 23
    else sign + 255 * 2 ^ 23 + 2 ^ 22 + m / 2 ^ 29 % 2 ^ 22
  else
    let M := if e = 0 then m else 2 ^ 52 + m
    if M = 0 then sign
    else
      let j := Nat.log2 M
      let k : Int := if e = 0 then -1074 else (e : Int) - 1075
      let eu : Int := j + k
      if eu < -126 then
        let sh : Int := k + 149
        let F := if 0 ≤ sh then M * 2 ^ sh.toNat else rne M (-sh).toNat
        sign + F
      else
        let sig := if j ≤ 23 then M * 2 ^ (23 - j) else rne M (j - 23)
        if sig = 2 ^ 24 then
          if 127 < eu + 1 then sign + 255 * 2 ^ 23
          else sign + (eu + 1 + 127).toNat * 2 ^ 23
        else
          if 127 < eu then sign + 255 * 2 ^ 23
          else sign + (eu + 127).toNat * 2 ^ 23 + (sig - 2 ^ 23)

/-- UTF-8 bytes of a host string (the bytes behind a Rust `&str`). -/
def strBytes (s : String) : List Nat :=
  s.toUTF8.toList.map (fun b => b.toNat)

/-- Modelled from the spec: the backend's per-column stored value that a
`SqliteValue` reader is positioned over, by storage class. Integer storage is
64-bit; real storage is a binary64 bit pattern; text storage is raw bytes;
blob storage records the declared byte length alongside the bytes actually
available (a truncated blob has fewer bytes than declared). The source's
`SqliteValue` type lives in `sqlite/connection`, which is not under `src/`. -/
inductive SqliteValue where
  | integer (n : Int)
  | real (bits : Nat)
  | text (bytes : List Nat)
  | blob (declared : Nat) (bytes : List Nat)
  | null
deriving DecidableEq, Repr

/-- Modelled from the spec: `read_integer` yields the backend's 32-bit view of
integer storage (two's-complement narrowing of the 64-bit storage, as in the
backend's C cast). Coercion of other storage classes is the backend's
responsibility and is not reimplemented here; the model returns 0 for them. -/
def SqliteValue.read_integer : SqliteValue → Int
  | .integer n => wrap32 n
  | _ => 0

/-- Modelled from the spec: `read_long` yields the 64-bit integer storage.
Coercion of other storage classes is not modelled; the model returns 0. -/
def SqliteValue.read_long : SqliteValue → Int
  | .integer n => n
  | _ => 0

/-- Modelled from the spec: `read_double` yields the binary64 bit pattern of
real storage. Coercion of other storage classes is not modelled. -/
def SqliteValue.read_double : SqliteValue → Nat
  | .real bits => bits
  | _ => 0

/-- Modelled from the spec: `read_text` yields the borrowed view of the text
storage bytes when they can be interpreted as the requested host type; bytes
that are not valid UTF-8 surface a decode error (spec section 7). -/
def SqliteValue.read_text : SqliteValue → Except String (List Nat)
  | .text bytes =>
    if (utf8Decode bytes).isSome then .ok bytes
    else .error "invalid UTF-8 in text storage"
  | _ => .error "text storage class expected"

/-- Modelled from the spec: `read_blob` yields the borrowed view of the blob
storage bytes; a malformed or truncated blob (fewer bytes available than
declared) surfaces a decode error (spec section 7). -/
def SqliteValue.read_blob : SqliteValue → Except String (List Nat)
  | .blob declared bytes =>
    if bytes.length = declared then .ok bytes
    else .error "truncated blob storage"
  | _ => .error "blob storage class expected"

/-- The sink slot written by `Output::set_value`, one constructor per
overload used in the source (`i32`, `i64`, `f64`, `&str`, `&[u8]`). -/
inductive InternalSqliteBindValue where
  | i32 (n : Int)
  | i64 (n : Int)
  | f64 (bits : Nat)
  | string (bytes : List Nat)
  | binary (bytes : List Nat)
  | null
deriving DecidableEq, Repr

/-- The `Output` sink for one bind parameter. -/
structure Output where
  value : InternalSqliteBindValue
deriving DecidableEq, Repr

/-- `Output::set_value`: overwrite the slot with the encoded value. -/
def Output.set_value (out : Output) (v : InternalSqliteBindValue) : Output :=
  { out with value := v }

/-- `serialize::IsNull`: whether the written value denotes SQL NULL. -/
inductive IsNull where
  | yes
  | no
deriving DecidableEq, Repr

/-- `serialize::Result` = `Result<IsNull, Error>`. -/
abbrev SerializeResult := Except String IsNull

/-- Modelled from the spec: executing the statement stores each bound
parameter under the corresponding backend storage class (integers under
integer storage, floats under real storage, strings under text storage,
byte slices under blob storage). -/
def bindValue : InternalSqliteBindValue → SqliteValue
  | .i32 n => .integer n
  | .i64 n => .integer n
  | .f64 bits => .real bits
  | .string bytes => .text bytes
  | .binary bytes => .blob bytes.length bytes
  | .null => .null

/-- `impl FromSql<sql_types::VarChar, Sqlite> for *const str`:
`Ok(value.read_text() as *const _)`. The raw view is modelled as the text
storage bytes; fallibility lives in the reader's text extraction. -/
def from_sql_VarChar_str (value : SqliteValue) : Except String (List Nat) :=
  value.read_text

/-- `impl FromSql<sql_types::Binary, Sqlite> for *const [u8]`:
`Ok(bytes.read_blob() as *const _)`. -/
def from_sql_Binary_bytes (value : SqliteValue) : Except String (List Nat) :=
  value.read_blob

/-- `impl FromSql<sql_types::SmallInt, Sqlite> for i16`:
`Ok(value.read_integer() as i16)` — intentional two's-complement truncation. -/
def from_sql_SmallInt_i16 (value : SqliteValue) : Except String Int :=
  .ok (wrap16 value.read_integer)

/-- `impl FromSql<sql_types::Integer, Sqlite> for i32`:
`Ok(value.read_integer())`. -/
def from_sql_Integer_i32 (value : SqliteValue) : Except String Int :=
  .ok value.read_integer

/-- `impl FromSql<sql_types::Bool, Sqlite> for bool`:
`Ok(value.read_integer() != 0)`. -/
def from_sql_Bool_bool (value : SqliteValue) : Except String Bool :=
  .ok (value.read_integer != 0)

/-- `impl FromSql<sql_types::BigInt, Sqlite> for i64`:
`Ok(value.read_long())`. -/
def from_sql_BigInt_i64 (value : SqliteValue) : Except String Int :=
  .ok value.read_long

/-- `impl FromSql<sql_types::Float, Sqlite> for f32`:
`Ok(value.read_double() as f32)` — intentional 64→32-bit narrowing. -/
def from_sql_Float_f32 (value : SqliteValue) : Except String Nat :=
  .ok (f64_as_f32 value.read_double)

/-- `impl FromSql<sql_types::Double, Sqlite> for f64`:
`Ok(value.read_double())`. -/
def from_sql_Double_f64 (value : SqliteValue) : Except String Nat :=
  .ok value.read_double

/-- `impl ToSql<sql_types::Integer, Sqlite> for i32`:
`out.set_value(*self); Ok(IsNull::No)`. -/
def to_sql_Integer_i32 (self : Int) (out : Output) : Output × SerializeResult :=
  (out.set_value (.i32 self), .ok .no)

/-- `impl ToSql<sql_types::Bool, Sqlite> for bool`: encodes `1` or `0` and
delegates to the `i32`/`Integer` implementation. -/
def to_sql_Bool_bool (self : Bool) (out : Output) : Output × SerializeResult :=
  to_sql_Integer_i32 (if self then 1 else 0) out

/-- `impl ToSql<sql_types::Text, Sqlite> for str`:
`out.set_value(self); Ok(IsNull::No)`. -/
def to_sql_Text_str (self : String) (out : Output) : Output × SerializeResult :=
  (out.set_value (.string (strBytes self)), .ok .no)

/-- `impl ToSql<sql_types::Binary, Sqlite> for [u8]`:
`out.set_value(self); Ok(IsNull::No)`. -/
def to_sql_Binary_bytes (self : List Nat) (out : Output) : Output × SerializeResult :=
  (out.set_value (.binary self), .ok .no)

/-- `impl ToSql<sql_types::SmallInt, Sqlite> for i16`:
`out.set_value(*self as i32); Ok(IsNull::No)` — the `i16 → i32` cast is
value-preserving, so the slot holds the same integer value widened. -/
def to_sql_SmallInt_i16 (self : Int) (out : Output) : Output × SerializeResult :=
  (out.set_value (.i32 self), .ok .no)

/-- `impl ToSql<sql_types::BigInt, Sqlite> for i64`:
`out.set_value(*self); Ok(IsNull::No)`. -/
def to_sql_BigInt_i64 (self : Int) (out : Output) : Output × SerializeResult :=
  (out.set_value (.i64 self), .ok .no)

/-- `impl ToSql<sql_types::Float, Sqlite> for f32`:
`out.set_value(*self as f64); Ok(IsNull::No)`. -/
def to_sql_Float_f32 (self : Nat) (out : Output) : Output × SerializeResult :=
  (out.set_value (.f64 (f32_as_f64 self)), .ok .no)

/-- `impl ToSql<sql_types::Double, Sqlite> for f64`:
`out.set_value(*self); Ok(IsNull::No)`. -/
def to_sql_Double_f64 (self : Nat) (out : Output) : Output × SerializeResult :=
  (out.set_value (.f64 self), .ok .no)

/-- `enum JsonValidFlag`: the closed set of named flag discriminants for the
`json_valid` function. -/
inductive JsonValidFlag where
  | rfc8259Json
  | json5
  | jsonbLike
  | rfc8259JsonOrJsonb
  | json5OrJsonb
  | jsonbStrict
  | rfc8259JsonOrJsonbStrict
  | json5OrJsonbStrict
deriving DecidableEq, Repr

/-- The explicit discriminant of each `JsonValidFlag` variant (`*self as i32`). -/
def JsonValidFlag.as_i32 : JsonValidFlag → Int
  | .rfc8259Json => 1
  | .json5 => 2
  | .jsonbLike => 4
  | .rfc8259JsonOrJsonb => 5
  | .json5OrJsonb => 6
  | .jsonbStrict => 8
  | .rfc8259JsonOrJsonbStrict => 9
  | .json5OrJsonbStrict => 10

/-- `impl ToSql<JsonValidFlags, Sqlite> for JsonValidFlag`:
`out.set_value(*self as i32); Ok(IsNull::No)`. -/
def to_sql_JsonValidFlags_flag (self : JsonValidFlag) (out : Output) :
    Output × SerializeResult :=
  (out.set_value (.i32 self.as_i32), .ok .no)

/-- `impl ToSql<JsonValidFlags, Sqlite> for i32` (backward compatibility):
delegates to `<i32 as ToSql<sql_types::Integer, Sqlite>>::to_sql(self, out)`. -/
def to_sql_JsonValidFlags_i32 (self : Int) (out : Output) :
    Output × SerializeResult :=
  to_sql_Integer_i32 self out

theorem inI16_to_inI32 {n : Int} (h : inI16 n) : inI32 n := by
  obtain ⟨h1, h2⟩ := h
  have e : (2 : Int) ^ 31 = 2147483648 := by norm_num
  refine ⟨?_, ?_⟩ <;> rw [e] <;> omega

theorem wrap16_eq_of_inI16 {n : Int} (h : inI16 n) : wrap16 n = n := by
  obtain ⟨h1, h2⟩ := h
  have e : wrap16 n = (n + 32768) % 65536 - 32768 := by norm_num [wrap16, wrapTo]
  omega

theorem wrap32_eq_of_inI32 {n : Int} (h : inI32 n) : wrap32 n = n := by
  obtain ⟨h1, h2⟩ := h
  have e : wrap32 n = (n + 2147483648) % 4294967296 - 2147483648 := by
    norm_num [wrap32, wrapTo]
  have h1' : -2147483648 ≤ n := by exact_mod_cast h1
  have h2' : n < 2147483648 := by exact_mod_cast h2
  omega

/-- C1: encoding the named discriminant `Json5OrJsonb` and then decoding the
underlying `Integer` tag yields the raw value 6; encoding the raw integer 6
through the backward-compatible `i32` path leaves the sink in the same state
as encoding `Json5OrJsonb`; in general, encoding any named discriminant is
equal to encoding its fixed integer value through the raw path. -/
theorem c1_json_flag_encode_raw_equiv :
    (∀ (f : JsonValidFlag) (out : Output),
      to_sql_JsonValidFlags_flag f out = to_sql_JsonValidFlags_i32 f.as_i32 out)
    ∧ (∀ out : Output,
      from_sql_Integer_i32 (bindValue (to_sql_JsonValidFlags_flag .json5OrJsonb out).1.value)
        = .ok 6)
    ∧ (∀ out : Output,
      (to_sql_JsonValidFlags_i32 6 out).1 = (to_sql_JsonValidFlags_flag .json5OrJsonb out).1) := by
  refine ⟨fun f out => ?_, fun out => ?_, fun out => ?_⟩
  · cases f <;> rfl
  · show Except.ok (wrap32 6) = Except.ok 6
    rw [wrap32_eq_of_inI32 (by decide)]
  · rfl

/-- C2: decoding via the `SmallInt` tag truncates the stored 32-bit integer by
two's-complement narrowing, with no error and no range check, for every
32-bit input; a stored 65536 decodes to 0 and a stored 32768 to -32768. -/
theorem c2_smallint_decode_truncation :
    (∀ n : Int, inI32 n →
      from_sql_SmallInt_i16 (.integer n) = .ok (wrap16 n))
    ∧ from_sql_SmallInt_i16 (.integer 65536) = .ok 0
    ∧ from_sql_SmallInt_i16 (.integer 32768) = .ok (-32768) := by
  refine ⟨fun n h => ?_, ?_, ?_⟩
  · show Except.ok (wrap16 (wrap32 n)) = Except.ok (wrap16 n)
    rw [wrap32_eq_of_inI32 h]
  · show Except.ok (wrap16 (wrap32 65536)) = Except.ok 0
    rw [wrap32_eq_of_inI32 (by decide)]
    norm_num [wrap16, wrapTo]
  · show Except.ok (wrap16 (wrap32 32768)) = Except.ok (-32768)
    rw [wrap32_eq_of_inI32 (by decide)]
    norm_num [wrap16, wrapTo]

/-- Witness for C2 at the concrete input 65536. -/
theorem c2_witness :
    from_sql_SmallInt_i16 (.integer 65536) = .ok (wrap16 65536) :=
  c2_smallint_decode_truncation.1 65536 (by decide)

/-- C3: encoding a 16-bit value via `SmallInt` widens it into the sink's
32-bit integer slot, and decoding it back via `SmallInt` returns exactly the
original value. -/
theorem c3_smallint_roundtrip :
    ∀ x : Int, inI16 x → ∀ out : Output,
      (to_sql_SmallInt_i16 x out).1.value = .i32 x
      ∧ from_sql_SmallInt_i16 (bindValue (to_sql_SmallInt_i16 x out).1.value) = .ok x := by
  intro x hx out
  refine ⟨rfl, ?_⟩
  show Except.ok (wrap16 (wrap32 x)) = Except.ok x
  rw [wrap32_eq_of_inI32 (inI16_to_inI32 hx), wrap16_eq_of_inI16 hx]

/-- Witness for C3 at the concrete input -12345. -/
theorem c3_witness :
    from_sql_SmallInt_i16 (bindValue (to_sql_SmallInt_i16 (-12345) ⟨.null⟩).1.value)
      = .ok (-12345) :=
  (c3_smallint_roundtrip (-12345) (by decide) ⟨.null⟩).2

/-- C4: decoding via `Bool` yields true exactly for nonzero stored integers
(2 decodes to true, 0 to false); encoding writes 1 for true and 0 for false;
encode followed by decode is the identity on booleans. -/
theorem c4_bool_decode_encode :
    (∀ n : Int, inI32 n →
      (from_sql_Bool_bool (.integer n) = .ok true ↔ n ≠ 0))
    ∧ from_sql_Bool_bool (.integer 2) = .ok true
    ∧ from_sql_Bool_bool (.integer 0) = .ok false
    ∧ (∀ out : Output, (to_sql_Bool_bool true out).1.value = .i32 1)
    ∧ (∀ out : Output, (to_sql_Bool_bool false out).1.value = .i32 0)
    ∧ (∀ (b : Bool) (out : Output),
      from_sql_Bool_bool (bindValue (to_sql_Bool_bool b out).1.value) = .ok b) := by
  refine ⟨fun n h => ?_, ?_, ?_, fun out => rfl, fun out => rfl, fun b out => ?_⟩
  · show Except.ok (wrap32 n != 0) = Except.ok true ↔ n ≠ 0
    rw [wrap32_eq_of_inI32 h]
    constructor
    · intro he hn
      subst hn
      simp at he
    · intro hn
      simp [bne_iff_ne, hn]
  · show Except.ok (wrap32 2 != 0) = Except.ok true
    rw [wrap32_eq_of_inI32 (by decide)]
    rfl
  · show Except.ok (wrap32 0 != 0) = Except.ok false
    rw [wrap32_eq_of_inI32 (by decide)]
    rfl
  · cases b
    · show Except.ok (wrap32 0 != 0) = Except.ok false
      rw [wrap32_eq_of_inI32 (by decide)]
      rfl
    · show Except.ok (wrap32 1 != 0) = Except.ok true
      rw [wrap32_eq_of_inI32 (by decide)]
      rfl

/-- Witness for C4 at the concrete stored integer 2. -/
theorem c4_witness : from_sql_Bool_bool (.integer 2) = .ok true :=
  (c4_bool_decode_encode.1 2 (by decide)).mpr (by decide)

/-- C6: every encode implementation of this layer succeeds and reports the
not-null indication, for every host value: bool, str, byte slice, i16, i32,
i64, f32, f64, and both JSON-validity-flag paths. -/
theorem c6_encode_never_null :
    (∀ (b : Bool) (out : Output), (to_sql_Bool_bool b out).2 = .ok IsNull.no)
    ∧ (∀ (s : String) (out : Output), (to_sql_Text_str s out).2 = .ok IsNull.no)
    ∧ (∀ (bs : List Nat) (out : Output), (to_sql_Binary_bytes bs out).2 = .ok IsNull.no)
    ∧ (∀ (x : Int) (out : Output), (to_sql_SmallInt_i16 x out).2 = .ok IsNull.no)
    ∧ (∀ (x : Int) (out : Output), (to_sql_Integer_i32 x out).2 = .ok IsNull.no)
    ∧ (∀ (x : Int) (out : Output), (to_sql_BigInt_i64 x out).2 = .ok IsNull.no)
    ∧ (∀ (x : Nat) (out : Output), (to_sql_Float_f32 x out).2 = .ok IsNull.no)
    ∧ (∀ (x : Nat) (out : Output), (to_sql_Double_f64 x out).2 = .ok IsNull.no)
    ∧ (∀ (f : JsonValidFlag) (out : Output),
      (to_sql_JsonValidFlags_flag f out).2 = .ok IsNull.no)
    ∧ (∀ (x : Int) (out : Output), (to_sql_JsonValidFlags_i32 x out).2 = .ok IsNull.no) :=
  ⟨fun _ _ => rfl, fun _ _ => rfl, fun _ _ => rfl, fun _ _ => rfl, fun _ _ => rfl,
   fun _ _ => rfl, fun _ _ => rfl, fun _ _ => rfl, fun _ _ => rfl, fun _ _ => rfl⟩

/-- C7: when the stored bytes cannot be interpreted as the requested host type
(non-UTF-8 text via `VarChar`, truncated blob via `Binary`), the decode call
returns a decode error to the caller — total functions, no panic — and on
valid storage it returns the actual stored view, never a default. -/
theorem c7_zero_copy_decode_errors :
    (∀ bytes : List Nat, utf8Decode bytes = none →
      from_sql_VarChar_str (.text bytes) = .error "invalid UTF-8 in text storage")
    ∧ (∀ (declared : Nat) (bytes : List Nat), bytes.length ≠ declared →
      from_sql_Binary_bytes (.blob declared bytes) = .error "truncated blob storage")
    ∧ (∀ bytes : List Nat, (utf8Decode bytes).isSome →
      from_sql_VarChar_str (.text bytes) = .ok bytes) := by
  refine ⟨fun bytes h => ?_, fun declared bytes h => ?_, fun bytes h => ?_⟩
  · simp [from_sql_VarChar_str, SqliteValue.read_text, h]
  · simp [from_sql_Binary_bytes, SqliteValue.read_blob, h]
  · simp [from_sql_VarChar_str, SqliteValue.read_text, h]

/-- Witness for C7 at the concrete inputs: the lone byte 0xFF (not UTF-8) and
a blob declaring 5 bytes with only 2 available. -/
theorem c7_witness :
    from_sql_VarChar_str (.text [255]) = .error "invalid UTF-8 in text storage"
    ∧ from_sql_Binary_bytes (.blob 5 [1, 2]) = .error "truncated blob storage" :=
  ⟨c7_zero_copy_decode_errors.1 [255] rfl,
   c7_zero_copy_decode_errors.2.1 5 [1, 2] (by decide)⟩

/-- C9: every numeric and boolean decode implementation of this layer
(`SmallInt`/i16, `Integer`/i32, `Bool`/bool, `BigInt`/i64, `Float`/f32,
`Double`/f64) returns a success value on every reader state and never takes
the error branch. -/
theorem c9_numeric_decodes_infallible :
    ∀ value : SqliteValue,
      (∃ a, from_sql_SmallInt_i16 value = .ok a)
      ∧ (∃ a, from_sql_Integer_i32 value = .ok a)
      ∧ (∃ a, from_sql_Bool_bool value = .ok a)
      ∧ (∃ a, from_sql_BigInt_i64 value = .ok a)
      ∧ (∃ a, from_sql_Float_f32 value = .ok a)
      ∧ (∃ a, from_sql_Double_f64 value = .ok a) :=
  fun _ => ⟨⟨_, rfl⟩, ⟨_, rfl⟩, ⟨_, rfl⟩, ⟨_, rfl⟩, ⟨_, rfl⟩, ⟨_, rfl⟩⟩

/-- C10: the backward-compatible raw-integer encode path for the
JSON-validity-flags tag accepts every 32-bit integer without validation,
encodes it exactly as the plain `Integer` path does, and the stored value
reads back unchanged. -/
theorem c10_json_flags_raw_i32_no_validation :
    ∀ n : Int, inI32 n → ∀ out : Output,
      to_sql_JsonValidFlags_i32 n out = to_sql_Integer_i32 n out
      ∧ (to_sql_JsonValidFlags_i32 n out).2 = .ok IsNull.no
      ∧ from_sql_Integer_i32 (bindValue (to_sql_JsonValidFlags_i32 n out).1.value) = .ok n := by
  intro n h out
  refine ⟨rfl, rfl, ?_⟩
  show Except.ok (wrap32 n) = Except.ok n
  rw [wrap32_eq_of_inI32 h]

/-- Witness for C10 at the concrete inputs -1 and 3, which name no valid flag
combination. -/
theorem c10_witness :
    from_sql_Integer_i32 (bindValue (to_sql_JsonValidFlags_i32 (-1) ⟨.null⟩).1.value) = .ok (-1)
    ∧ from_sql_Integer_i32 (bindValue (to_sql_JsonValidFlags_i32 3 ⟨.null⟩).1.value) = .ok 3 :=
  ⟨(c10_json_flags_raw_i32_no_validation (-1) (by decide) ⟨.null⟩).2.2,
   (c10_json_flags_raw_i32_no_validation 3 (by decide) ⟨.null⟩).2.2⟩

end DieselSqlite
